import Mathlib

/-!
Verification of `src/ATMS/csv_to_geojson.py` (CSV-of-addresses → GeoJSON points).

The script is embedded shallowly:
* a table row is an association list of column name to cell value
  (pandas keeps column order, so a list is faithful);
* `full_address` embeds the string-building block at source lines 31–36
  (note: it concatenates `Address`, `City`, `State/Province`, `Country`;
  the source does NOT use the `Postal Code` column there, even though
  `ADDRESS_COLS` on line 19 lists it);
* the geocoding loop body (lines 40–48) becomes `geocodeRow`, parametrised
  by an abstract external geocoder `String → LookupOutcome`; it also
  returns the number of external calls it performed;
* the export block (lines 52–77) becomes `toFeature` / `exportFeatures`.

Coordinates are modelled as rationals (the script never computes with
them, it only stores and tests presence), column access as `Except`
(pandas raises `KeyError` on a missing column).
-/

namespace CsvToGeojson

/-- A cell value of the table: a string, an integer (pandas parses bare
numbers as numeric), or a missing value (NaN). -/
inductive Value
  | str (s : String)
  | intNum (n : Int)
  | rat (q : ℚ)
  | nan
deriving DecidableEq, Repr

/-- Python `str(x)` as applied by `.astype(str)`: a float NaN prints as
the literal string `nan`. -/
def Value.toStr : Value → String
  | .str s => s
  | .intNum n => toString n
  | .rat q => toString q
  | .nan => "nan"

/-- One row of the table: column name / cell value pairs in column order. -/
abbrev Row := List (String × Value)

/-- Column lookup, `df[k]` on one row: `KeyError` (here `.error k`) when the
column does not exist. -/
def getCol (r : Row) (k : String) : Except String Value :=
  match r.find? (fun p => p.1 == k) with
  | some p => Except.ok p.2
  | none => Except.error k

/-- Python whitespace for `str.strip()`. -/
def pyIsSpace (c : Char) : Bool :=
  c = ' ' || c = '\t' || c = '\n' || c = '\r' || c = '\x0b' || c = '\x0c'

/-- `str.strip()` on the character list. -/
def stripChars (l : List Char) : List Char :=
  ((l.dropWhile pyIsSpace).reverse.dropWhile pyIsSpace).reverse

/-- `str.strip()`. -/
def pyStrip (s : String) : String := ⟨stripChars s.data⟩

/-- The character class of the regex `[, ]+` at source line 36. -/
def isSep (c : Char) : Bool := c = ',' || c = ' '

/-- Worker for the regex substitution `re.sub(r'[, ]+', ' ', s)`: the Bool
argument records whether the previous character belonged to a comma/space
run (the regex is greedy and matches are leftmost, so each maximal run is
one match). At the first character of a run one space is emitted; the rest
of the run is skipped. -/
def normAux : Bool → List Char → List Char
  | _, [] => []
  | inRun, c :: cs =>
    if isSep c then
      if inRun then normAux true cs else ' ' :: normAux true cs
    else c :: normAux false cs

/-- `re.sub(r'[, ]+', ' ', s)` on the character list: each maximal run of
commas/spaces becomes one space. -/
def normChars (l : List Char) : List Char := normAux false l

/-- `.str.replace(r'[, ]+', ' ', regex=True)` at source line 36. -/
def normalize (s : String) : String := ⟨normChars s.data⟩

/-- The `ADDRESS_COLS` constant of source line 19 — declared in the script
as the columns that form the postal address ("must exist in CSV"), but never
used by the rest of the script. -/
def ADDRESS_COLS : List String :=
  ["Address", "City", "State/Province", "Postal Code", "Country"]

/-- The `full_address` derivation of source lines 31–36 for one row:
string-coerce and strip `Address`, `City`, `State/Province`, `Country`,
join with a comma-space, then collapse comma/space runs. The source reads
exactly these four columns; `Postal Code` is never accessed. A missing
column is the pandas `KeyError`, modelled as `Except.error` with the
column name. -/
def full_address (r : Row) : Except String String := do
  let a ← getCol r "Address"
  let ci ← getCol r "City"
  let st ← getCol r "State/Province"
  let co ← getCol r "Country"
  pure (normalize
    (pyStrip a.toStr ++ ", " ++ pyStrip ci.toStr ++ ", " ++
     pyStrip st.toStr ++ ", " ++ pyStrip co.toStr))

/-- What one external geocoder call can come back with: a located match
(`loc` with a latitude and a longitude), no match (`None` from geopy), or
a raised exception. -/
inductive LookupOutcome
  | found (lat lon : ℚ)
  | noMatch
  | err (msg : String)

/-- The per-row result of the geocoding loop: latitude and longitude,
each possibly absent (the `(None, None)` tuples of the source). -/
structure GeocodeResult where
  lat : Option ℚ
  lon : Option ℚ
deriving DecidableEq, Repr

/-- Both coordinates present — the rows `dropna(subset=[latitude, longitude])`
keeps. -/
def GeocodeResult.bothPresent (r : GeocodeResult) : Bool :=
  r.lat.isSome && r.lon.isSome

/-- One iteration of the loop at source lines 40–48, for the address value
`addr` (`none` models a NaN caught by `pd.isna`). Returns the appended
coordinate pair together with the number of calls made to the external
geocoder `g`:
* NaN or empty-after-strip address: append `(None, None)`, no call;
* otherwise one call; a match gives `(lat, lon)`, no match or any
  exception gives `(None, None)` (the exception is caught and printed). -/
def geocodeRow (g : String → LookupOutcome) (addr : Option String) :
    GeocodeResult × Nat :=
  match addr with
  | none => (⟨none, none⟩, 0)
  | some a =>
    if pyStrip a = "" then (⟨none, none⟩, 0)
    else
      match g a with
      | .found la lo => (⟨some la, some lo⟩, 1)
      | .noMatch => (⟨none, none⟩, 1)
      | .err _ => (⟨none, none⟩, 1)

/-- The whole geocoding loop: one result appended per row, in row order. -/
def geocodeAll (g : String → LookupOutcome) (addrs : List (Option String)) :
    List GeocodeResult :=
  addrs.map (fun a => (geocodeRow g a).1)

/-- The `rename_map` of source lines 59–65: canonical address columns to
their lowercase aliases. -/
def rename_map : List (String × String) :=
  [("Address", "address"), ("City", "city"), ("State/Province", "province"),
   ("Postal Code", "postalcode"), ("Country", "country")]

/-- `df.rename(columns=...)` on one column name: replaced by its alias when
it has one, kept otherwise. -/
def renameKey (k : String) : String :=
  match rename_map.find? (fun p => p.1 == k) with
  | some p => p.2
  | none => k

/-- `df.rename(columns=...)` on a row: every column keeps its value, names
go through `renameKey`. -/
def renameRow (r : Row) : Row := r.map (fun p => (renameKey p.1, p.2))

/-- An output feature: a point geometry as an (x, y) = (longitude, latitude)
pair, and the row columns as properties. -/
structure Feature where
  geometry : ℚ × ℚ
  properties : Row
deriving DecidableEq, Repr

/-- The coordinate reference system the output is tagged with
(source line 73). -/
def outputCrs : String := "EPSG:4326"

/-- The export pipeline of source lines 52–74 for one row paired with its
geocode result: attach the coordinates as `latitude`/`longitude` columns,
drop the row when either is absent (`dropna`), rename the canonical address
columns to lowercase aliases, and build the point geometry from
`(longitude, latitude)` in that axis order (`points_from_xy(df.longitude,
df.latitude)`). All columns of the row survive into the properties. -/
def toFeature (p : Row × GeocodeResult) : Option Feature :=
  match p.2.lat, p.2.lon with
  | some la, some lo =>
    some { geometry := (lo, la),
           properties :=
             renameRow (p.1 ++ [("latitude", Value.rat la),
                                ("longitude", Value.rat lo)]) }
  | _, _ => none

/-- The features written to `atms.geojson`: the surviving rows, in order.
`rows` are the table rows (with `full_address` already attached), `results`
the coordinate pairs from the geocoding loop; row i carries result i. -/
def exportFeatures (rows : List Row) (results : List GeocodeResult) :
    List Feature :=
  (rows.zip results).filterMap toFeature

/-! Concrete rows used to evaluate the embedded code. -/

/-- The example row of the end-to-end scenario: all five address columns
present. -/
def exampleRow : Row :=
  [("Address", .str "1 Main St"), ("City", .str "Springfield"),
   ("State/Province", .str "IL"), ("Postal Code", .str "62701"),
   ("Country", .str "USA")]

/-- The example row without its `Postal Code` column. -/
def rowNoPostal : Row :=
  [("Address", .str "1 Main St"), ("City", .str "Springfield"),
   ("State/Province", .str "IL"), ("Country", .str "USA")]

/-- The example row without its `Address` column. -/
def rowNoAddress : Row :=
  [("City", .str "Springfield"), ("State/Province", .str "IL"),
   ("Postal Code", .str "62701"), ("Country", .str "USA")]

/-! Helper lemmas. -/

/-- Running the regex-substitution worker over its own output changes
nothing, whatever the starting run-state: the output never contains a
comma and never two adjacent spaces, so every comma/space run of the
output is a single space, which the substitution maps to itself. -/
theorem normAux_idem (l : List Char) :
    ∀ b, normAux b (normAux b l) = normAux b l := by
  induction l with
  | nil => intro b; rfl
  | cons c cs ih =>
    intro b
    by_cases h : isSep c
    · cases b
      · have hsp : isSep ' ' = true := rfl
        simp [normAux, h, hsp, ih true]
      · simp [normAux, h, ih true]
    · cases b <;> simp [normAux, h, ih false]

/-! The claims. -/

/-- Claim C1 (code bug): the claim says `full_address` concatenates all
five address fields, so the example row should yield
`1 Main St Springfield IL 62701 USA`. Evaluating the embedded source on
that row: the produced string is `1 Main St Springfield IL USA` — the
source never reads the `Postal Code` column when building `full_address`
(even though its own `ADDRESS_COLS` declares it as part of the postal
address), and the produced string differs from the claimed one. -/
theorem C1_full_address_omits_postal_code :
    full_address exampleRow = Except.ok "1 Main St Springfield IL USA" ∧
    ("1 Main St Springfield IL USA" : String) ≠
      "1 Main St Springfield IL 62701 USA" :=
  ⟨rfl, by decide⟩

/-- Claim C2 (code bug): the claim says a run fails with a missing-key
error whenever any of the five address columns is absent. Evaluating the
embedded source: a row lacking only `Postal Code` builds its
`full_address` without any error (the column is never accessed), while a
row lacking `Address` does raise the missing-key error. So the code
enforces presence of only four of the five declared columns. -/
theorem C2_missing_postal_code_not_detected :
    full_address rowNoPostal = Except.ok "1 Main St Springfield IL USA" ∧
    full_address rowNoAddress = Except.error "Address" :=
  ⟨rfl, rfl⟩

/-- Claim C3: when each row carries its geocode result, the number of
features exported equals the number of rows whose result has both
coordinates present — `dropna` keeps exactly those rows and the saved
count is the length of the surviving list. -/
theorem C3_feature_count_eq_kept_rows (rows : List Row)
    (results : List GeocodeResult) (h : rows.length = results.length) :
    (exportFeatures rows results).length
      = (results.filter GeocodeResult.bothPresent).length := by
  induction rows generalizing results with
  | nil =>
    have hr : results = [] := List.length_eq_zero.mp h.symm
    subst hr; rfl
  | cons r rs ih =>
    cases results with
    | nil => simp at h
    | cons q qs =>
      have h2 : rs.length = qs.length := by simpa using h
      have ih2 := ih qs h2
      obtain ⟨la, lo⟩ := q
      cases la <;> cases lo <;>
        simpa [exportFeatures, List.zip_cons_cons, List.filterMap_cons,
               toFeature, GeocodeResult.bothPresent, List.filter_cons]
          using ih2

/-- Witness for C3 at two concrete rows: one full fix, one with absent
latitude; one feature survives. -/
theorem C3_feature_count_eq_kept_rows_witness :
    ([exampleRow, exampleRow] : List Row).length
      = ([⟨some 1, some 2⟩, ⟨none, some 3⟩] : List GeocodeResult).length ∧
    (exportFeatures [exampleRow, exampleRow]
        [⟨some 1, some 2⟩, ⟨none, some 3⟩]).length
      = (([⟨some 1, some 2⟩, ⟨none, some 3⟩] : List GeocodeResult).filter
          GeocodeResult.bothPresent).length :=
  ⟨rfl, C3_feature_count_eq_kept_rows [exampleRow, exampleRow]
    [⟨some 1, some 2⟩, ⟨none, some 3⟩] rfl⟩

/-- Claim C4: no iteration of the geocoding loop yields a partial pair —
latitude is present exactly when longitude is, whatever the external
geocoder does. -/
theorem C4_never_partial_pair (g : String → LookupOutcome)
    (addr : Option String) :
    ((geocodeRow g addr).1.lat.isSome) = ((geocodeRow g addr).1.lon.isSome) := by
  rcases addr with _ | a
  · rfl
  · by_cases h : pyStrip a = ""
    · simp [geocodeRow, h]
    · cases hg : g a <;> simp [geocodeRow, h, hg]

/-- Claim C5: an absent (NaN) or whitespace-only-after-strip address gives
`(absent, absent)` immediately, and the external-call count of that
iteration is zero (the rate-limited geocoder is never entered). -/
theorem C5_empty_address_no_call (g : String → LookupOutcome)
    (addr : Option String)
    (h : addr = none ∨ ∃ a, addr = some a ∧ pyStrip a = "") :
    geocodeRow g addr = (⟨none, none⟩, 0) := by
  rcases h with h | ⟨a, rfl, ha⟩
  · subst h; rfl
  · simp [geocodeRow, ha]

/-- Witness for C5 at the concrete whitespace-only address. -/
theorem C5_empty_address_no_call_witness :
    geocodeRow (fun _ => LookupOutcome.noMatch) (some "  ")
      = (⟨none, none⟩, 0) :=
  C5_empty_address_no_call (fun _ => LookupOutcome.noMatch) (some "  ")
    (Or.inr ⟨"  ", rfl, rfl⟩)

/-- Claim C6: when the external call for an address raises any exception,
or returns no match, that row's result is `(absent, absent)`; the loop
still produces results for every other row before and after it (the run
never aborts), and the failing address is called at most once (never
retried). -/
theorem C6_geocode_error_recovered (g : String → LookupOutcome) (a : String)
    (pre post : List (Option String))
    (h : (∃ msg, g a = .err msg) ∨ g a = .noMatch) :
    geocodeAll g (pre ++ some a :: post)
      = geocodeAll g pre ++ ⟨none, none⟩ :: geocodeAll g post ∧
    (geocodeRow g (some a)).2 ≤ 1 := by
  have hrow : geocodeRow g (some a)
      = (⟨none, none⟩, (if pyStrip a = "" then 0 else 1)) := by
    by_cases hs : pyStrip a = ""
    · simp [geocodeRow, hs]
    · rcases h with ⟨m, hm⟩ | hm <;> simp [geocodeRow, hs, hm]
  constructor
  · simp [geocodeAll, hrow]
  · rw [hrow]; split <;> simp

/-- A geocoder that raises on every call. -/
def gErr : String → LookupOutcome := fun _ => .err "network is unreachable"

/-- Witness for C6: with an always-raising geocoder, the middle row of
three comes out `(absent, absent)` and the two neighbours are still
processed. -/
theorem C6_geocode_error_recovered_witness :
    geocodeAll gErr [some "A St", some "1 Main St", none]
      = geocodeAll gErr [some "A St"] ++ ⟨none, none⟩ :: geocodeAll gErr [none] ∧
    (geocodeRow gErr (some "1 Main St")).2 ≤ 1 :=
  C6_geocode_error_recovered gErr "1 Main St" [some "A St"] [none]
    (Or.inl ⟨"network is unreachable", rfl⟩)

/-- Claim C7: the comma/space-run normalization of source line 36 is
idempotent — normalizing an already-normalized string changes nothing. -/
theorem C7_normalize_idempotent (s : String) :
    normalize (normalize s) = normalize s :=
  congrArg String.mk (normAux_idem s.data false)

/-- Claim C8: every exported geometry is built as `(longitude, latitude)`
in that axis order, the output is tagged `EPSG:4326` (WGS84), and the row
geocoded to latitude 39.78 / longitude −89.65 gets geometry
`(−89.65, 39.78)`. -/
theorem C8_geometry_axis_order_and_crs :
    (∀ (r : Row) (la lo : ℚ),
      (toFeature (r, ⟨some la, some lo⟩)).map Feature.geometry
        = some (lo, la)) ∧
    outputCrs = "EPSG:4326" ∧
    (toFeature (exampleRow,
        ⟨some (39.78 : ℚ), some (-89.65 : ℚ)⟩)).map Feature.geometry
      = some ((-89.65 : ℚ), (39.78 : ℚ)) :=
  ⟨fun _ _ _ => rfl, rfl, rfl⟩

/-- Claim C9: every column of a surviving row reaches the feature's
properties with its value unchanged: its name goes through `renameKey`,
which is the identity on any column outside the five canonical address
columns and maps each canonical column to its lowercase alias. -/
theorem C9_properties_preserved (r : Row) (res : GeocodeResult)
    (f : Feature) (hf : toFeature (r, res) = some f)
    (k : String) (v : Value) (hkv : (k, v) ∈ r) :
    (renameKey k, v) ∈ f.properties ∧
    (k ∉ ADDRESS_COLS → renameKey k = k) ∧
    renameKey "Address" = "address" ∧ renameKey "City" = "city" ∧
    renameKey "State/Province" = "province" ∧
    renameKey "Postal Code" = "postalcode" ∧
    renameKey "Country" = "country" := by
  refine ⟨?_, ?_, rfl, rfl, rfl, rfl, rfl⟩
  · obtain ⟨la, lo⟩ := res
    cases la <;> cases lo <;> simp [toFeature] at hf
    subst hf
    have hm : (renameKey k, v) ∈ renameRow r := List.mem_map_of_mem _ hkv
    simp [renameRow, List.map_append] at hm ⊢
    exact Or.inl hm
  · intro hk
    simp [ADDRESS_COLS] at hk
    obtain ⟨h1, h2, h3, h4, h5⟩ := hk
    have e1 : (("Address" : String) == k) = false :=
      beq_eq_false_iff_ne.mpr (Ne.symm h1)
    have e2 : (("City" : String) == k) = false :=
      beq_eq_false_iff_ne.mpr (Ne.symm h2)
    have e3 : (("State/Province" : String) == k) = false :=
      beq_eq_false_iff_ne.mpr (Ne.symm h3)
    have e4 : (("Postal Code" : String) == k) = false :=
      beq_eq_false_iff_ne.mpr (Ne.symm h4)
    have e5 : (("Country" : String) == k) = false :=
      beq_eq_false_iff_ne.mpr (Ne.symm h5)
    simp [renameKey, rename_map, List.find?, e1, e2, e3, e4, e5]

/-- A one-column row for the C9 witness. -/
def wRow : Row := [("Name", Value.str "Main Branch")]

/-- The feature the export builds from `wRow` with a full coordinate
fix. -/
def wFeature : Feature :=
  { geometry := ((-89.65 : ℚ), (39.78 : ℚ)),
    properties := [("Name", Value.str "Main Branch"),
                   ("latitude", Value.rat (39.78 : ℚ)),
                   ("longitude", Value.rat (-89.65 : ℚ))] }

/-- Witness for C9: the passthrough column `Name` of a concrete surviving
row reaches the feature's properties unchanged. -/
theorem C9_properties_preserved_witness :
    (renameKey "Name", Value.str "Main Branch") ∈ wFeature.properties ∧
    ("Name" ∉ ADDRESS_COLS → renameKey "Name" = "Name") ∧
    renameKey "Address" = "address" ∧ renameKey "City" = "city" ∧
    renameKey "State/Province" = "province" ∧
    renameKey "Postal Code" = "postalcode" ∧
    renameKey "Country" = "country" :=
  C9_properties_preserved wRow ⟨some (39.78 : ℚ), some (-89.65 : ℚ)⟩
    wFeature rfl "Name" (Value.str "Main Branch")
    (List.mem_cons_self _ _)

/-- Claim C10: the geocoding loop yields exactly one result per input row,
in input order — the result list has the table's length and position i
holds the result of geocoding address i (so the attached columns pair row
i with result i, and the attempted count equals the row count). -/
theorem C10_one_result_per_row_in_order (g : String → LookupOutcome)
    (addrs : List (Option String)) :
    (geocodeAll g addrs).length = addrs.length ∧
    ∀ i : Nat, (geocodeAll g addrs)[i]?
      = (addrs[i]?).map (fun a => (geocodeRow g a).1) := by
  refine ⟨List.length_map _ _, fun i => ?_⟩
  simp [geocodeAll, List.getElem?_map]

end CsvToGeojson
